import Mathlib

/-!
Shallow embedding of the remote-debugging core of dangrie158/py-toolbox:
the client reactor `RdbClient` and the server session manager `Rdb` from
`pytb/rdb.py`, the parameter resolution shared with `pytb/config.py`, and
the stream-redirection scopes from `pytb/io.py`, together with theorems
about the behaviour of the event loop, the session lifecycle and the
redirection scopes.
-/

/-- A byte as produced by `socket.recv` and consumed by `send`/`write`. -/
abbrev Byte := Nat

/-- State of the `RdbClient` reactor: mirrors the fields `socket_closed`
(rdb.py:233), `socketbuf` (bytes queued for the socket) and `stdoutbuf`
(bytes queued for local stdout) created in `RdbClient.__init__`
(rdb.py:254-255). -/
structure ClientState where
  socket_closed : Bool
  socketbuf : List Byte
  stdoutbuf : List Byte
  deriving DecidableEq, Repr

/-- One readiness event delivered by `selectors.DefaultSelector.select`
(rdb.py:260-263), bundled with the response of the environment to the
system call the handler would then make:
* `sockEvent readable writable chunk accept`: the socket is ready with the
  given mask bits; `chunk` is what `recv(1024)` would return (empty means
  the peer closed), `accept` bounds how many bytes `send` would take;
* `stdinEvent data`: local stdin is readable, `data` is the encoded byte
  sequence of `stdin.read()` (rdb.py:277);
* `stdoutEvent accept`: local stdout is writable, `accept` bounds how many
  bytes `stdout.write` takes. -/
inductive IOEvent where
  | sockEvent (readable writable : Bool) (chunk : List Byte) (accept : Nat)
  | stdinEvent (data : List Byte)
  | stdoutEvent (accept : Nat)
  deriving DecidableEq, Repr

/-- Observable effects of handling events: bytes written to local stdout,
bytes handed to `socket.send`, bytes returned by `socket.recv`, and the
number of `recv` calls performed. -/
structure StepOut where
  wrote : List Byte
  sent : List Byte
  rcvd : List Byte
  recvs : Nat
  deriving DecidableEq, Repr

/-- No observable effect. -/
def StepOut.nothing : StepOut := ⟨[], [], [], 0⟩

/-- Concatenation of the effects of two consecutive handler runs. -/
def StepOut.append (a b : StepOut) : StepOut :=
  ⟨a.wrote ++ b.wrote, a.sent ++ b.sent, a.rcvd ++ b.rcvd, a.recvs + b.recvs⟩

/-- Embedding of `RdbClient._handle_io` (rdb.py:265-280) on one event.
The socket branch tests `EVENT_READ` first and only `elif` tests
`EVENT_WRITE`, so a socket reported simultaneously readable and writable
only has its read handled. `recv` is performed unconditionally on a
readable socket (the source has no `socket_closed` guard); an empty
result sets `socket_closed` and is still appended to `stdoutbuf` (a
no-op append). The byte counts returned by `send` and `write` are
modelled as `min accept (length buffer)`, and the code drops exactly
that prefix from the corresponding buffer. -/
def handle_io (s : ClientState) (e : IOEvent) : ClientState × StepOut :=
  match e with
  | .sockEvent readable writable chunk accept =>
    if readable then
      ({ s with
          socket_closed := if chunk.isEmpty then true else s.socket_closed,
          stdoutbuf := s.stdoutbuf ++ chunk },
        ⟨[], [], chunk, 1⟩)
    else if writable then
      if s.socketbuf.isEmpty then (s, StepOut.nothing)
      else
        let sent := min accept s.socketbuf.length
        ({ s with socketbuf := s.socketbuf.drop sent },
          ⟨[], s.socketbuf.take sent, [], 0⟩)
    else (s, StepOut.nothing)
  | .stdinEvent data =>
    ({ s with socketbuf := s.socketbuf ++ data }, StepOut.nothing)
  | .stdoutEvent accept =>
    let sent := min accept s.stdoutbuf.length
    ({ s with stdoutbuf := s.stdoutbuf.drop sent },
      ⟨s.stdoutbuf.take sent, [], [], 0⟩)

/-- Dispatch of every event of one `select()` batch to `_handle_io`
(rdb.py:261-263). -/
def handleBatch : ClientState → List IOEvent → ClientState × StepOut
  | s, [] => (s, StepOut.nothing)
  | s, e :: es =>
    let r1 := handle_io s e
    let r2 := handleBatch r1.1 es
    (r2.1, r1.2.append r2.2)

/-- Negation of the guard `while not self.socket_closed or self.stdoutbuf`
(rdb.py:258): the loop exits iff the socket is closed and the stdout
buffer is empty. -/
def loopDone (s : ClientState) : Bool := s.socket_closed && s.stdoutbuf.isEmpty

/-- The reactor loop (rdb.py:258-263) over a finite observation of
selector batches: before each `select()` the guard is evaluated; all
events of a delivered batch are dispatched before the guard is evaluated
again. -/
def runLoop : ClientState → List (List IOEvent) → ClientState × StepOut
  | s, [] => (s, StepOut.nothing)
  | s, b :: bs =>
    if loopDone s then (s, StepOut.nothing)
    else
      let r1 := handleBatch s b
      let r2 := runLoop r1.1 bs
      (r2.1, r1.2.append r2.2)

/-- Initial reactor state: both buffers start empty (rdb.py:254-255) and
the socket is open (rdb.py:233). -/
def clientInit : ClientState := ⟨false, [], []⟩

/-- Four writable-readiness cycles on a socket accepting 500 bytes per
`send`. -/
def drain4 : List (List IOEvent) :=
  List.replicate 4 [IOEvent.sockEvent false true [] 500]

/-- Concrete batch trace for the lossless-relay property, mirroring the
test of P1 in the spec: two chunks, a close, then a stdout drain. -/
def relayBatches : List (List IOEvent) :=
  [[IOEvent.sockEvent true false [65, 66] 0],
   [IOEvent.sockEvent true false [67, 68] 0],
   [IOEvent.sockEvent true false [] 0],
   [IOEvent.stdoutEvent 1024]]

/-- Process-wide `sys.stdin` / `sys.stdout` / `sys.stderr` endpoints,
each an opaque endpoint identifier. -/
structure SysStreams where
  stdin : Nat
  stdout : Nat
  stderr : Nat
  deriving DecidableEq, Repr

/-- The `[rdb]` section of `pytb.config.Config`, whose built-in defaults
are given in config.py:27-32. `port` values are already `int`-converted
as the source does with `int(config.get("port"))`. -/
structure RdbSection where
  port : Nat
  bind_to : String
  host : String
  patch_stdio : Bool
  deriving DecidableEq, Repr

/-- Built-in defaults of the `[rdb]` section (config.py:27-32). -/
def defaultRdbSection : RdbSection :=
  { port := 8268, bind_to := "0.0.0.0", host := "127.0.0.1", patch_stdio := true }

/-- Fields of an `Rdb` instance that the session lifecycle touches.
`initDone` distinguishes a fully constructed instance from the object
that `Rdb.__init__` stores into `Rdb._session` on its first statement
(rdb.py:75), before bind/listen/accept have run. `original_streams` is
the saved-streams dict, which exists only when `patch_stdio` was applied
(rdb.py:106-108); `connection_file` is the endpoint wrapping the accepted
connection (rdb.py:99); `stdin`/`stdout` mirror the fields handed to
`pdb.Pdb` (rdb.py:100-101) and reassigned by `_cleanup` (rdb.py:131-132). -/
structure RdbInst where
  initDone : Bool
  stdio_patched : Bool
  original_streams : Option SysStreams
  connection_file : Nat
  connClosed : Bool
  stdin : Nat
  stdout : Nat
  deriving DecidableEq, Repr

/-- Process-wide server state: the `Rdb._session` class attribute
(rdb.py:61), the `sys` stream endpoints, counters recording how often
`bind`/`listen`/`accept` were attempted, how often `Rdb.__init__` was
entered, how often the saved streams were restored, how often `_cleanup`
ran to completion and how often the connection file was closed, plus a
supply of fresh endpoint ids for accepted connections. -/
structure RdbWorld where
  session : Option RdbInst
  streams : SysStreams
  bindCount : Nat
  listenCount : Nat
  acceptCount : Nat
  constructCount : Nat
  restoreCount : Nat
  cleanupCount : Nat
  closeCount : Nat
  nextFd : Nat
  deriving DecidableEq, Repr

/-- Environment-variable fallback for `host` performed by `set_trace`
(rdb.py:179-180): only consulted when the explicit argument is `None`. -/
def setTraceHost (host envHost : Option String) : Option String :=
  match host with
  | none => envHost
  | some h => some h

/-- Environment-variable fallback for `port` performed by `set_trace`
(rdb.py:181-184); `envPort` stands for `int(REMOTE_PDB_PORT)` when the
variable is set. -/
def setTracePort (port envPort : Option Nat) : Option Nat :=
  match port with
  | none => envPort
  | some p => some p

/-- Config fallback for the bind interface in `Rdb.__init__`
(rdb.py:83). -/
def rdbInitHost (cfg : RdbSection) (host : Option String) : String :=
  match host with
  | none => cfg.bind_to
  | some h => h

/-- Config fallback for the port in `Rdb.__init__` (rdb.py:84). -/
def rdbInitPort (cfg : RdbSection) (port : Option Nat) : Nat :=
  match port with
  | none => cfg.port
  | some p => p

/-- Config fallback for `patch_stdio` in `Rdb.__init__`
(rdb.py:85-87). -/
def rdbInitPatch (cfg : RdbSection) (patch_stdio : Option Bool) : Bool :=
  match patch_stdio with
  | none => cfg.patch_stdio
  | some b => b

/-- Host resolution along the full server path `set_trace` →
`Rdb.__init__`. -/
def serverHost (cfg : RdbSection) (host envHost : Option String) : String :=
  rdbInitHost cfg (setTraceHost host envHost)

/-- Port resolution along the full server path `set_trace` →
`Rdb.__init__`. -/
def serverPort (cfg : RdbSection) (port envPort : Option Nat) : Nat :=
  rdbInitPort cfg (setTracePort port envPort)

/-- Host resolution of `RdbClient.__init__` (rdb.py:229): explicit
argument, else the config key `host`. The client consults no environment
variable. -/
def clientHost (cfg : RdbSection) (host : Option String) : String :=
  match host with
  | none => cfg.host
  | some h => h

/-- Port resolution of `RdbClient.__init__` (rdb.py:230): explicit
argument, else the config key `port`. The client consults no environment
variable. -/
def clientPort (cfg : RdbSection) (port : Option Nat) : Nat :=
  match port with
  | none => cfg.port
  | some p => p

/-- Modelled from the words of the spec: resolution precedence
explicit argument over environment override over configured value. Used
only to compare the resolution of the code against the claimed one. -/
def specPrecedence {α : Type} (explicitArg envVar : Option α) (cfgVal : α) : α :=
  match explicitArg with
  | some v => v
  | none =>
    match envVar with
    | some v => v
    | none => cfgVal

/-- Embedding of `Rdb.__init__` (rdb.py:67-111), in source order: assign
`Rdb._session = self` first (line 75, before anything can fail), resolve
missing arguments from the config section (lines 82-87), then create the
listening socket and bind (lines 89-91; `bindFails` makes `bind` raise,
e.g. address in use, in which case the exception propagates carrying the
process state as left by the lines already executed — there is no
`except`/`finally` in the source), listen and block in `accept`
(lines 95-96), wrap the accepted connection in `connection_file` and pass
it to `pdb.Pdb` as `stdin`/`stdout` (lines 99-102), and if `patch_stdio`
save the three `sys` streams and replace them by the connection file
(lines 104-109). -/
def rdbInit (cfg : RdbSection) (host : Option String) (port : Option Nat)
    (patch_stdio : Option Bool) (bindFails : Bool) (w : RdbWorld) :
    Except RdbWorld (RdbWorld × RdbInst) :=
  let w1 := { w with
    session := some ⟨false, false, none, 0, false, 0, 0⟩,
    constructCount := w.constructCount + 1 }
  let _host := rdbInitHost cfg host
  let _port := rdbInitPort cfg port
  let patch := rdbInitPatch cfg patch_stdio
  let w2 := { w1 with bindCount := w1.bindCount + 1 }
  if bindFails then .error w2
  else
    let w3 := { w2 with listenCount := w2.listenCount + 1 }
    let conn := w3.nextFd
    let w4 := { w3 with acceptCount := w3.acceptCount + 1, nextFd := w3.nextFd + 1 }
    let w5 := { w4 with streams := if patch then ⟨conn, conn, conn⟩ else w4.streams }
    let inst : RdbInst :=
      ⟨true, patch, if patch then some w4.streams else none, conn, false, conn, conn⟩
    .ok ({ w5 with session := some inst }, inst)

/-- Embedding of `Rdb._cleanup` (rdb.py:120-136): flush the currently
installed streams (no modelled effect), restore the `sys` streams iff
`stdio_patched` — the flag is never cleared by `_cleanup`, so a later
call restores again —, rebind the instance `stdin`/`stdout` to the now
current `sys` streams (rdb.py:131-132), close the connection file
(idempotent), and clear `Rdb._session`. The combination
`stdio_patched = true` with no saved dict never arises for instances
produced by `rdbInit`. -/
def cleanup (i : RdbInst) (w : RdbWorld) : RdbWorld × RdbInst :=
  let w1 :=
    match i.stdio_patched, i.original_streams with
    | true, some o => { w with streams := o, restoreCount := w.restoreCount + 1 }
    | _, _ => w
  let i1 := { i with stdin := w1.streams.stdin, stdout := w1.streams.stdout }
  let w2 := { w1 with closeCount := w1.closeCount + 1 }
  let i2 := { i1 with connClosed := true }
  let w3 := { w2 with session := none, cleanupCount := w2.cleanupCount + 1 }
  (w3, i2)

/-- Embedding of `Rdb.do_quit` (rdb.py:148-150): run `_cleanup`, then
delegate to `pdb.Pdb.do_quit`, which only ends the command loop. -/
def do_quit (i : RdbInst) (w : RdbWorld) : RdbWorld × RdbInst := cleanup i w

/-- Embedding of `Rdb.do_EOF` (rdb.py:144-146): run `_cleanup`, then
delegate to `pdb.Pdb.do_EOF`. -/
def do_EOF (i : RdbInst) (w : RdbWorld) : RdbWorld × RdbInst := cleanup i w

/-- Outcome of delegating to the `pdb` engine via
`Rdb._session.set_trace(...)` (rdb.py:188): the interactive loop either
returns normally (`continue`), raises an exception, or ends through the
`quit` or EOF command handlers, which run `_cleanup` (rdb.py:144-152).
`set_trace` installs no handler around the engine, so a raising engine
propagates the exception with the process state untouched. -/
inductive EngineAction where
  | engineReturn
  | engineRaise
  | engineQuit
  | engineEOF
  deriving DecidableEq, Repr

/-- Dispatch of one engine interaction on the session instance. -/
def runEngine (i : RdbInst) (a : EngineAction) (w : RdbWorld) :
    Except RdbWorld (RdbWorld × RdbInst) :=
  match a with
  | .engineReturn => .ok (w, i)
  | .engineRaise => .error w
  | .engineQuit => .ok (do_quit i w)
  | .engineEOF => .ok (do_EOF i w)

/-- Embedding of the module-level `set_trace` (rdb.py:163-188): when
`Rdb._session` is `None`, fill missing `host`/`port` from the
`REMOTE_PDB_HOST`/`REMOTE_PDB_PORT` environment variables and construct
an `Rdb` (which itself falls back to the config); otherwise reuse the
existing session verbatim. Finally delegate to the session instance. -/
def set_trace (cfg : RdbSection) (host : Option String) (port : Option Nat)
    (patch_stdio : Option Bool) (envHost : Option String) (envPort : Option Nat)
    (bindFails : Bool) (a : EngineAction) (w : RdbWorld) :
    Except RdbWorld (RdbWorld × RdbInst) :=
  match w.session with
  | none =>
    let host := setTraceHost host envHost
    let port := setTracePort port envPort
    match rdbInit cfg host port patch_stdio bindFails w with
    | .error we => .error we
    | .ok (w1, i1) => runEngine i1 a w1
  | some i => runEngine i a w

/-- Demo world for the session-lifecycle witnesses: no live session,
streams 0, 1 and 2, all counters zero, next endpoint id 10. -/
def demoWorld : RdbWorld :=
  { session := none, streams := ⟨0, 1, 2⟩, bindCount := 0, listenCount := 0,
    acceptCount := 0, constructCount := 0, restoreCount := 0, cleanupCount := 0,
    closeCount := 0, nextFd := 10 }

/-- The fully constructed instance `rdbInit` produces from `demoWorld`
with `patch_stdio` explicitly true. -/
def demoInst : RdbInst := ⟨true, true, some ⟨0, 1, 2⟩, 10, false, 10, 10⟩

/-- The world `rdbInit` leaves behind when run on `demoWorld` with
`patch_stdio` explicitly true and a successful bind. -/
def demoWorldAfter : RdbWorld :=
  { session := some demoInst, streams := ⟨10, 10, 10⟩, bindCount := 1,
    listenCount := 1, acceptCount := 1, constructCount := 1, restoreCount := 0,
    cleanupCount := 0, closeCount := 0, nextFd := 11 }

/-- The world left behind when the engine interaction on `demoWorldAfter`
ends through the `quit` command handler, which runs `_cleanup`. -/
def demoWorldQuit : RdbWorld :=
  { session := none, streams := ⟨0, 1, 2⟩, bindCount := 1, listenCount := 1,
    acceptCount := 1, constructCount := 1, restoreCount := 1,
    cleanupCount := 1, closeCount := 1, nextFd := 11 }

/-- The session instance after the `quit` path ran `_cleanup` on
`demoInst`: connection closed, `stdin`/`stdout` rebound to the restored
`sys` streams. -/
def demoInstQuit : RdbInst :=
  { demoInst with connClosed := true, stdin := 0, stdout := 1 }

/-- Names of the process-wide output streams the io module redirects. -/
inductive StreamName where
  | stdout
  | stderr
  deriving DecidableEq, Repr

/-- The process-wide `sys.stdout` / `sys.stderr` endpoints seen by
`pytb/io.py`, each an opaque endpoint id. -/
structure SysOut where
  stdout : Nat
  stderr : Nat
  deriving DecidableEq, Repr

/-- Embedding of `getattr(module, attr)` for `module = sys` and the two
redirected attribute names. -/
def getStream (s : SysOut) : StreamName → Nat
  | .stdout => s.stdout
  | .stderr => s.stderr

/-- Embedding of `setattr(module, attr, v)` for `module = sys`. -/
def setStream (s : SysOut) : StreamName → Nat → SysOut
  | .stdout, v => { s with stdout := v }
  | .stderr, v => { s with stderr := v }

/-- Embedding of the `_redirect_stream` context manager (io.py:129-141)
run over a whole scope. `out` is the already-open target endpoint
(`_permissive_open` passes file objects through unchanged, io.py:115-126;
the string-path case merely opens and later closes a fresh file and is
not needed here). On entry the current endpoint of `attr` is saved, the
attribute is set to `out`, and then — unconditionally, whatever `attr`
is — the source executes `sys.stdout = out` (io.py:136). The body is an
arbitrary transformation of the stream state that either completes or
raises (the returned flag). The `finally` block restores only the
redirected attribute (io.py:140); the assignment to `sys.stdout` is never
undone. The restoration runs whether or not the body raised, and the
raised flag propagates. -/
def redirect_stream (out : Nat) (attr : StreamName)
    (body : SysOut → SysOut × Bool) (s : SysOut) : SysOut × Bool :=
  let old := getStream s attr
  let s1 := setStream s attr out
  let s2 := { s1 with stdout := out }
  let r := body s2
  (setStream r.1 attr old, r.2)

/-- Embedding of `redirected_stdout` (io.py:143-162):
`_redirect_stream(file, sys, "stdout")`. -/
def redirected_stdout (out : Nat) (body : SysOut → SysOut × Bool)
    (s : SysOut) : SysOut × Bool :=
  redirect_stream out .stdout body s

/-- Embedding of `redirected_stderr` (io.py:165-173):
`_redirect_stream(file, sys, "stderr")`. -/
def redirected_stderr (out : Nat) (body : SysOut → SysOut × Bool)
    (s : SysOut) : SysOut × Bool :=
  redirect_stream out .stderr body s

/-- Embedding of `redirected_stdstreams` (io.py:176-185): an outer
`_redirect_stream` on `stdout` whose yielded object feeds an inner
`_redirect_stream` on `stderr`. -/
def redirected_stdstreams (out : Nat) (body : SysOut → SysOut × Bool)
    (s : SysOut) : SysOut × Bool :=
  redirect_stream out .stdout
    (fun s1 => redirect_stream out .stderr body s1) s

theorem handle_io_wrote_inv (s : ClientState) (e : IOEvent) :
    (handle_io s e).2.wrote ++ (handle_io s e).1.stdoutbuf =
      s.stdoutbuf ++ (handle_io s e).2.rcvd := by
  cases e with
  | sockEvent r w chunk a =>
    cases r with
    | true => simp [handle_io]
    | false =>
      cases w with
      | true =>
        cases h : s.socketbuf.isEmpty <;> simp [handle_io, h, StepOut.nothing]
      | false => simp [handle_io, StepOut.nothing]
  | stdinEvent d => simp [handle_io, StepOut.nothing]
  | stdoutEvent a => simp [handle_io, List.take_append_drop]

theorem handleBatch_wrote_inv (es : List IOEvent) (s : ClientState) :
    (handleBatch s es).2.wrote ++ (handleBatch s es).1.stdoutbuf =
      s.stdoutbuf ++ (handleBatch s es).2.rcvd := by
  induction es generalizing s with
  | nil => simp [handleBatch, StepOut.nothing]
  | cons e es ih =>
    simp only [handleBatch, StepOut.append]
    have h1 := handle_io_wrote_inv s e
    have h2 := ih (handle_io s e).1
    rw [List.append_assoc, h2, ← List.append_assoc, h1, List.append_assoc]

theorem runLoop_wrote_inv (bs : List (List IOEvent)) (s : ClientState) :
    (runLoop s bs).2.wrote ++ (runLoop s bs).1.stdoutbuf =
      s.stdoutbuf ++ (runLoop s bs).2.rcvd := by
  induction bs generalizing s with
  | nil => simp [runLoop, StepOut.nothing]
  | cons b bs ih =>
    by_cases hd : loopDone s = true
    · simp [runLoop, hd, StepOut.nothing]
    · simp only [runLoop, StepOut.append, if_neg hd]
      have h1 := handleBatch_wrote_inv b s
      have h2 := ih (handleBatch s b).1
      rw [List.append_assoc, h2, ← List.append_assoc, h1, List.append_assoc]

theorem loopDone_empty (s : ClientState) (h : loopDone s = true) :
    s.stdoutbuf = [] := by
  have := (Bool.and_eq_true _ _).mp h
  simpa using this.2

/-- C1: for every sequence of selector batches processed by the
`RdbClient` event loop from its initial state, the bytes written to local
stdout followed by the bytes still buffered equal, in content and order,
the concatenation of the chunks returned by `recv`; in particular, once
the loop guard is satisfied (socket closed and buffer drained) the bytes
written to stdout equal exactly the concatenation of the received
chunks — nothing is lost, duplicated or reordered. -/
theorem rdbclient_lossless_relay (batches : List (List IOEvent)) :
    (runLoop clientInit batches).2.wrote ++ (runLoop clientInit batches).1.stdoutbuf =
        (runLoop clientInit batches).2.rcvd ∧
      (loopDone (runLoop clientInit batches).1 = true →
        (runLoop clientInit batches).2.wrote = (runLoop clientInit batches).2.rcvd) := by
  have h := runLoop_wrote_inv batches clientInit
  rw [show clientInit.stdoutbuf = [] from rfl, List.nil_append] at h
  refine ⟨h, fun hdone => ?_⟩
  have hb := loopDone_empty _ hdone
  rw [hb, List.append_nil] at h
  exact h

theorem rdbclient_lossless_relay_witness :
    loopDone (runLoop clientInit relayBatches).1 = true ∧
      (runLoop clientInit relayBatches).2.wrote =
        (runLoop clientInit relayBatches).2.rcvd :=
  ⟨by decide, (rdbclient_lossless_relay relayBatches).2 (by decide)⟩

/-- C2: the loop guard is satisfied exactly when the closed flag is set
and the inbound buffer is empty, so the loop cannot exit with buffered
bytes; and from any state where the peer close has been observed with
bytes still buffered, any run of the loop that does reach the exit
condition has written exactly those buffered bytes (followed by any bytes
received later) to local stdout. -/
theorem rdbclient_drain_after_close :
    (∀ s : ClientState,
        loopDone s = true ↔ s.socket_closed = true ∧ s.stdoutbuf = []) ∧
      ∀ (sb B : List Byte) (batches : List (List IOEvent)),
        loopDone (runLoop ⟨true, sb, B⟩ batches).1 = true →
        (runLoop ⟨true, sb, B⟩ batches).2.wrote =
          B ++ (runLoop ⟨true, sb, B⟩ batches).2.rcvd := by
  constructor
  · intro s
    simp [loopDone, List.isEmpty_iff]
  · intro sb B batches hdone
    have h := runLoop_wrote_inv batches ⟨true, sb, B⟩
    have hb := loopDone_empty _ hdone
    rw [hb, List.append_nil] at h
    exact h

theorem rdbclient_drain_after_close_witness :
    (runLoop ⟨true, [], [88, 89]⟩ [[IOEvent.stdoutEvent 1024]]).2.wrote =
      [88, 89] ++ (runLoop ⟨true, [], [88, 89]⟩ [[IOEvent.stdoutEvent 1024]]).2.rcvd :=
  rdbclient_drain_after_close.2 [] [88, 89] [[IOEvent.stdoutEvent 1024]] (by decide)

theorem dropMinLength (l : List Byte) (n : Nat) :
    l.drop (min n l.length) = l.drop n := by
  rcases le_total n l.length with h | h
  · rw [min_eq_left h]
  · rw [min_eq_right h, List.drop_length, eq_comm]
    exact List.drop_eq_nil_of_le h

theorem takeMinLength (l : List Byte) (n : Nat) :
    l.take (min n l.length) = l.take n := by
  rcases le_total n l.length with h | h
  · rw [min_eq_left h]
  · rw [min_eq_right h, List.take_length, eq_comm]
    exact List.take_of_length_le h

theorem handle_io_write (cl : Bool) (sb ob c : List Byte) (n : Nat) :
    handle_io ⟨cl, sb, ob⟩ (.sockEvent false true c n) =
      (⟨cl, sb.drop n, ob⟩, ⟨[], sb.take n, [], 0⟩) := by
  cases sb with
  | nil => simp [handle_io, StepOut.nothing]
  | cons x xs =>
    show ((⟨cl, List.drop (min n (x :: xs).length) (x :: xs), ob⟩ : ClientState),
        (⟨[], List.take (min n (x :: xs).length) (x :: xs), [], 0⟩ : StepOut)) =
      (⟨cl, List.drop n (x :: xs), ob⟩, ⟨[], List.take n (x :: xs), [], 0⟩)
    rw [dropMinLength, takeMinLength]

theorem drain_cycle_step (B : List Byte) (n : Nat) :
    handleBatch ⟨false, B, []⟩ [.sockEvent false true [] n] =
      (⟨false, B.drop n, []⟩, ⟨[], B.take n, [], 0⟩) := by
  simp [handleBatch, handle_io_write, StepOut.append, StepOut.nothing]

theorem drain_cycles (k : Nat) (B : List Byte) (n : Nat) :
    (runLoop ⟨false, B, []⟩
        (List.replicate k [IOEvent.sockEvent false true [] n])).1 =
        ⟨false, B.drop (k * n), []⟩ ∧
      (runLoop ⟨false, B, []⟩
        (List.replicate k [IOEvent.sockEvent false true [] n])).2.sent ++
          B.drop (k * n) = B := by
  induction k generalizing B with
  | zero => simp [runLoop, StepOut.nothing]
  | succ k ih =>
    have hguard : loopDone ⟨false, B, []⟩ = false := rfl
    rw [List.replicate_succ]
    simp only [runLoop, hguard, Bool.false_eq_true, if_false, StepOut.append,
      drain_cycle_step]
    have ihd := ih (B.drop n)
    rw [List.drop_drop] at ihd
    have harith : n + k * n = (k + 1) * n := by ring
    rw [harith] at ihd
    refine ⟨ihd.1, ?_⟩
    have := ihd.2
    calc List.take n B ++ (runLoop ⟨false, B.drop n, []⟩
            (List.replicate k [IOEvent.sockEvent false true [] n])).2.sent ++
          B.drop ((k + 1) * n)
        = List.take n B ++ ((runLoop ⟨false, B.drop n, []⟩
            (List.replicate k [IOEvent.sockEvent false true [] n])).2.sent ++
          B.drop ((k + 1) * n)) := by rw [List.append_assoc]
      _ = List.take n B ++ B.drop n := by rw [this]
      _ = B := List.take_append_drop n B

/-- C7: on a socket-writable readiness event with a non-empty outbound
buffer, the handler sends `min accept (length buffer)` bytes — exactly
as many as the socket accepts — and drops exactly that prefix from the
buffer; consequently any 2000-byte outbound buffer against a socket
accepting 500 bytes per `send` is fully drained after exactly 4
writable-readiness cycles (500 bytes still remain after 3), and the bytes
handed to `send` are exactly the original buffer, with nothing duplicated
or dropped. -/
theorem rdbclient_partial_send (s : ClientState) (c : List Byte) (a : Nat)
    (h : s.socketbuf ≠ []) :
    (handle_io s (.sockEvent false true c a)).1 =
        { s with socketbuf := s.socketbuf.drop (min a s.socketbuf.length) } ∧
      (handle_io s (.sockEvent false true c a)).2.sent =
        s.socketbuf.take (min a s.socketbuf.length) ∧
      ∀ B : List Byte, B.length = 2000 →
        (runLoop ⟨false, B, []⟩ drain4).1.socketbuf = [] ∧
          (runLoop ⟨false, B, []⟩ drain4).2.sent = B ∧
          (runLoop ⟨false, B, []⟩ (drain4.take 3)).1.socketbuf.length = 500 := by
  have hne : s.socketbuf.isEmpty = false := by
    cases hb : s.socketbuf with
    | nil => exact absurd hb h
    | cons x xs => rfl
  refine ⟨by simp [handle_io, hne], by simp [handle_io, hne], ?_⟩
  intro B hB
  have h4 := drain_cycles 4 B 500
  have h3 := drain_cycles 3 B 500
  have hd4 : B.drop (4 * 500) = [] := by
    apply List.drop_eq_nil_of_le
    rw [hB]
  have hempty : (runLoop ⟨false, B, []⟩ drain4).1.socketbuf = [] := by
    rw [show drain4 = List.replicate 4 [IOEvent.sockEvent false true [] 500] from rfl,
      h4.1, hd4]
  refine ⟨hempty, ?_, ?_⟩
  · have := h4.2
    rw [hd4, List.append_nil] at this
    rw [show drain4 = List.replicate 4 [IOEvent.sockEvent false true [] 500] from rfl,
      this]
  · rw [show drain4.take 3 = List.replicate 3 [IOEvent.sockEvent false true [] 500]
      from rfl, h3.1]
    simp [List.length_drop, hB]

theorem rdbclient_partial_send_witness :
    (handle_io ⟨false, [7, 8], []⟩ (.sockEvent false true [] 1)).1.socketbuf = [8] ∧
      (runLoop ⟨false, List.replicate 2000 0, []⟩ drain4).1.socketbuf = [] :=
  ⟨by rw [(rdbclient_partial_send ⟨false, [7, 8], []⟩ [] 1 (by decide)).1]; rfl,
    ((rdbclient_partial_send ⟨false, [7, 8], []⟩ [] 1 (by decide)).2.2
      (List.replicate 2000 0) (by rw [List.length_replicate])).1⟩

/-- C9 counterexample: the claim that after the first zero-length `recv`
the loop never performs another `recv` is false. In the trace below the
second batch delivers the zero-length read (recv number 2, after which
`socket_closed` is true) while two bytes are still buffered, so the loop
keeps running; the socket is never unregistered from the selector, and
the third readable batch performs a third `recv`. -/
theorem rdbclient_recv_after_close_cex :
    (runLoop clientInit
        [[IOEvent.sockEvent true false [72, 73] 0],
         [IOEvent.sockEvent true false [] 0]]).1.socket_closed = true ∧
      (runLoop clientInit
        [[IOEvent.sockEvent true false [72, 73] 0],
         [IOEvent.sockEvent true false [] 0]]).2.recvs = 2 ∧
      (runLoop clientInit
        [[IOEvent.sockEvent true false [72, 73] 0],
         [IOEvent.sockEvent true false [] 0],
         [IOEvent.sockEvent true false [] 0]]).2.recvs = 3 := by
  refine ⟨rfl, rfl, rfl⟩

/-- C9 amended: a zero-length `recv` marks the socket closed and the flag
is never cleared by any later event; the zero-length read is treated as
peer close rather than an error. The socket however stays registered, so
later readable events still perform a `recv`; such a post-close `recv`
returns empty and leaves the state completely unchanged. -/
theorem rdbclient_closed_sticky (s : ClientState) (e : IOEvent) :
    (s.socket_closed = true → (handle_io s e).1.socket_closed = true) ∧
      ∀ (w : Bool) (a : Nat), s.socket_closed = true →
        (handle_io s (.sockEvent true w [] a)).1 = s := by
  constructor
  · intro h
    cases e with
    | sockEvent r w chunk a =>
      cases r with
      | true => simp [handle_io, h]
      | false =>
        cases w with
        | true =>
          cases hb : s.socketbuf.isEmpty <;> simp [handle_io, hb, h]
        | false => simp [handle_io, h]
    | stdinEvent d => simp [handle_io, h]
    | stdoutEvent a => simp [handle_io, h]
  · intro w a h
    cases s with
    | mk c sb ob => simp at h; simp [handle_io, h]

theorem rdbclient_closed_sticky_witness :
    (handle_io ⟨true, [], [5]⟩ (.sockEvent true false [] 3)).1.socket_closed = true ∧
      (handle_io ⟨true, [], [5]⟩ (.sockEvent true false [] 3)).1 = ⟨true, [], [5]⟩ :=
  ⟨(rdbclient_closed_sticky ⟨true, [], [5]⟩ (.sockEvent true false [] 3)).1 rfl,
    (rdbclient_closed_sticky ⟨true, [], [5]⟩ (.sockEvent true false [] 3)).2 false 3 rfl⟩

theorem set_trace_reuse (cfg : RdbSection) (host : Option String)
    (port : Option Nat) (patch_stdio : Option Bool) (envHost : Option String)
    (envPort : Option Nat) (bindFails : Bool) (w : RdbWorld) (i : RdbInst)
    (hs : w.session = some i) :
    set_trace cfg host port patch_stdio envHost envPort bindFails
      .engineReturn w = .ok (w, i) := by
  simp only [set_trace, hs, runEngine]

theorem set_trace_fresh (cfg : RdbSection) (host : Option String)
    (port : Option Nat) (patch_stdio : Option Bool) (envHost : Option String)
    (envPort : Option Nat) (w : RdbWorld) (hn : w.session = none) :
    ∃ w1 i1,
      set_trace cfg host port patch_stdio envHost envPort false
          .engineReturn w = .ok (w1, i1) ∧
        w1.session = some i1 ∧
        w1.constructCount = w.constructCount + 1 ∧
        w1.bindCount = w.bindCount + 1 ∧
        w1.listenCount = w.listenCount + 1 ∧
        w1.acceptCount = w.acceptCount + 1 := by
  simp only [set_trace, hn, rdbInit, runEngine]
  simp only [Bool.false_eq_true, if_false]
  exact ⟨_, _, rfl, rfl, rfl, rfl, rfl, rfl⟩

/-- C3: calling `set_trace` twice without an intervening cleanup
constructs no second session. If the first call on a session-free world
succeeds (no bind failure, engine returns normally), the second call
returns the world and instance of the first call completely unchanged:
in particular it performs no additional bind, listen, accept or
construction, and both calls delegate to the same `Rdb` instance, which
is exactly the one held in the process-wide `Rdb._session` reference.
Across both calls exactly one construction, bind, listen and accept
happened. -/
theorem rdb_session_reuse (cfg : RdbSection)
    (h1 : Option String) (p1 : Option Nat) (ps1 : Option Bool)
    (eh1 : Option String) (ep1 : Option Nat)
    (h2 : Option String) (p2 : Option Nat) (ps2 : Option Bool)
    (eh2 : Option String) (ep2 : Option Nat)
    (w w1 : RdbWorld) (i1 : RdbInst)
    (hn : w.session = none)
    (hfirst : set_trace cfg h1 p1 ps1 eh1 ep1 false .engineReturn w =
      .ok (w1, i1)) :
    set_trace cfg h2 p2 ps2 eh2 ep2 false .engineReturn w1 = .ok (w1, i1) ∧
      w1.session = some i1 ∧
      w1.constructCount = w.constructCount + 1 ∧
      w1.bindCount = w.bindCount + 1 ∧
      w1.listenCount = w.listenCount + 1 ∧
      w1.acceptCount = w.acceptCount + 1 := by
  obtain ⟨w1', i1', heq, hses, hc, hb, hl, ha⟩ :=
    set_trace_fresh cfg h1 p1 ps1 eh1 ep1 w hn
  rw [heq] at hfirst
  injection hfirst with hpair
  injection hpair with hw hi
  subst hw; subst hi
  exact ⟨set_trace_reuse cfg h2 p2 ps2 eh2 ep2 false _ _ hses,
    hses, hc, hb, hl, ha⟩

theorem rdb_session_reuse_witness :
    set_trace defaultRdbSection none none none none none false
        .engineReturn demoWorldAfter = .ok (demoWorldAfter, demoInst) ∧
      demoWorldAfter.session = some demoInst ∧
      demoWorldAfter.constructCount = demoWorld.constructCount + 1 ∧
      demoWorldAfter.bindCount = demoWorld.bindCount + 1 ∧
      demoWorldAfter.listenCount = demoWorld.listenCount + 1 ∧
      demoWorldAfter.acceptCount = demoWorld.acceptCount + 1 :=
  rdb_session_reuse defaultRdbSection (some "0.0.0.0") (some 8268) (some true)
    none none none none none none none demoWorld demoWorldAfter demoInst
    rfl rfl

/-- C10: `Rdb.__init__` assigns `Rdb._session = self` as its first
statement, so if the bind fails afterwards the exception propagates with
the session reference already holding the partially constructed instance
(its `initDone` field is false) and no error path resets it; a subsequent
`set_trace` call therefore finds an existing session, performs no fresh
bind (the world is returned unchanged) and delegates to that same stored
instance. -/
theorem rdb_failed_bind_keeps_session (cfg : RdbSection)
    (host : Option String) (port : Option Nat) (patch_stdio : Option Bool)
    (w wErr : RdbWorld) (hn : w.session = none)
    (hbind : rdbInit cfg host port patch_stdio true w = .error wErr) :
    wErr.session = some ⟨false, false, none, 0, false, 0, 0⟩ ∧
      wErr.bindCount = w.bindCount + 1 ∧
      ∀ (h2 : Option String) (p2 : Option Nat) (ps2 : Option Bool)
        (eh2 : Option String) (ep2 : Option Nat),
        set_trace cfg h2 p2 ps2 eh2 ep2 false .engineReturn wErr =
          .ok (wErr, ⟨false, false, none, 0, false, 0, 0⟩) := by
  simp only [rdbInit, if_true, Except.error.injEq] at hbind
  subst hbind
  refine ⟨rfl, rfl, fun h2 p2 ps2 eh2 ep2 => ?_⟩
  exact set_trace_reuse cfg h2 p2 ps2 eh2 ep2 false _ _ rfl

theorem rdb_failed_bind_keeps_session_witness :
    ({ demoWorld with
        session := some ⟨false, false, none, 0, false, 0, 0⟩,
        constructCount := 1, bindCount := 1 } : RdbWorld).session =
        some ⟨false, false, none, 0, false, 0, 0⟩ ∧
      ({ demoWorld with
        session := some ⟨false, false, none, 0, false, 0, 0⟩,
        constructCount := 1, bindCount := 1 } : RdbWorld).bindCount =
        demoWorld.bindCount + 1 ∧
      ∀ (h2 : Option String) (p2 : Option Nat) (ps2 : Option Bool)
        (eh2 : Option String) (ep2 : Option Nat),
        set_trace defaultRdbSection h2 p2 ps2 eh2 ep2 false .engineReturn
            { demoWorld with
              session := some ⟨false, false, none, 0, false, 0, 0⟩,
              constructCount := 1, bindCount := 1 } =
          .ok ({ demoWorld with
              session := some ⟨false, false, none, 0, false, 0, 0⟩,
              constructCount := 1, bindCount := 1 },
            ⟨false, false, none, 0, false, 0, 0⟩) :=
  rdb_failed_bind_keeps_session defaultRdbSection (some "0.0.0.0") (some 8268)
    (some true) demoWorld
    { demoWorld with
      session := some ⟨false, false, none, 0, false, 0, 0⟩,
      constructCount := 1, bindCount := 1 }
    rfl rfl

/-- C5 counterexample: the claim that the second `_cleanup` call does not
attempt to restore the saved stdio endpoints is false. Starting from the
demo world, `rdbInit` (with `patch_stdio` true) produces the session
instance; the first `_cleanup` performs one restore, and because
`_cleanup` never clears `stdio_patched` (the guard it re-checks), the
second call in a row performs the restore again: the restore counter
reaches 2, not 1. -/
theorem rdb_cleanup_second_restore_cex :
    rdbInit defaultRdbSection (some "0.0.0.0") (some 8268) (some true) false
        demoWorld = .ok (demoWorldAfter, demoInst) ∧
      (cleanup demoInst demoWorldAfter).1.restoreCount = 1 ∧
      (cleanup (cleanup demoInst demoWorldAfter).2
        (cleanup demoInst demoWorldAfter).1).1.restoreCount = 2 :=
  ⟨rfl, rfl, rfl⟩

/-- C5 amended: calling `_cleanup` twice in a row raises no exception
(every step of the model is total: the restore rewrites saved values, the
file close is idempotent, clearing the session reference is idempotent),
but the second call does attempt — and perform — the restore again,
because the guard consults the `stdio_patched` flag, which `_cleanup`
never clears. The repeated restore rewrites the same saved endpoints, so
the second call leaves the stream state and the cleared session reference
unchanged; only the instrumentation counters advance. -/
theorem rdb_cleanup_twice (i : RdbInst) (w : RdbWorld) (o : SysStreams)
    (hp : i.stdio_patched = true) (ho : i.original_streams = some o) :
    (cleanup (cleanup i w).2 (cleanup i w).1).1.restoreCount =
        w.restoreCount + 2 ∧
      (cleanup (cleanup i w).2 (cleanup i w).1).1.streams =
        (cleanup i w).1.streams ∧
      (cleanup (cleanup i w).2 (cleanup i w).1).1.session = none ∧
      (cleanup i w).1.session = none := by
  simp [cleanup, hp, ho]

theorem rdb_cleanup_twice_witness :
    (cleanup (cleanup demoInst demoWorldAfter).2
          (cleanup demoInst demoWorldAfter).1).1.restoreCount =
        demoWorldAfter.restoreCount + 2 ∧
      (cleanup (cleanup demoInst demoWorldAfter).2
          (cleanup demoInst demoWorldAfter).1).1.streams =
        (cleanup demoInst demoWorldAfter).1.streams ∧
      (cleanup (cleanup demoInst demoWorldAfter).2
          (cleanup demoInst demoWorldAfter).1).1.session = none ∧
      (cleanup demoInst demoWorldAfter).1.session = none :=
  rdb_cleanup_twice demoInst demoWorldAfter ⟨0, 1, 2⟩ rfl rfl

/-- C6: the code violates the claim. `set_trace` and `Rdb` install no
handler or always-executed cleanup path around the interactive loop, so
when the engine raises mid-interaction the exception propagates with no
`_cleanup` run at all: starting from the demo world with `patch_stdio`
true, the error world still has the session reference set, the three
`sys` streams still redirected to the connection endpoint 10, and the
restore/cleanup/close counters all at zero — the claim requires cleanup
to have run exactly once before propagation. By contrast, the `quit`
command path does run `_cleanup` exactly once: streams restored, counters
at one, session cleared. -/
theorem rdb_engine_raise_skips_cleanup :
    set_trace defaultRdbSection (some "0.0.0.0") (some 8268) (some true)
        none none false .engineRaise demoWorld = .error demoWorldAfter ∧
      demoWorldAfter.restoreCount = 0 ∧
      demoWorldAfter.cleanupCount = 0 ∧
      demoWorldAfter.closeCount = 0 ∧
      demoWorldAfter.streams = ⟨10, 10, 10⟩ ∧
      demoWorldAfter.session = some demoInst ∧
      set_trace defaultRdbSection (some "0.0.0.0") (some 8268) (some true)
        none none false .engineQuit demoWorld =
          .ok (demoWorldQuit, demoInstQuit) ∧
      demoWorldQuit.restoreCount = 1 ∧
      demoWorldQuit.cleanupCount = 1 ∧
      demoWorldQuit.closeCount = 1 ∧
      demoWorldQuit.streams = ⟨0, 1, 2⟩ ∧
      demoWorldQuit.session = none :=
  ⟨rfl, rfl, rfl, rfl, rfl, rfl, rfl, rfl, rfl, rfl, rfl, rfl⟩

/-- C8 counterexample: the claim that the client resolves host and port
with precedence explicit over environment over configuration is false,
because `RdbClient.__init__` never consults an environment variable: with
no explicit host, the environment variable set to 10.1.2.3 and the
default configuration, the claimed precedence yields 10.1.2.3 while the
code yields the configured 127.0.0.1. -/
theorem rdb_client_env_precedence_cex :
    clientHost defaultRdbSection none ≠
      specPrecedence none (some "10.1.2.3") defaultRdbSection.host := by
  decide

/-- C8 amended: the server path (`set_trace` followed by `Rdb.__init__`)
resolves host and port with precedence explicit argument over environment
variable over configured value, for every combination of supplied and
omitted values; the client (`RdbClient.__init__`) resolves them with
precedence explicit argument over configured value only, consulting no
environment variable (its resolution coincides with the claimed one under
an empty environment). -/
theorem rdb_resolution_precedence (cfg : RdbSection)
    (host envHost : Option String) (port envPort : Option Nat) :
    serverHost cfg host envHost = specPrecedence host envHost cfg.bind_to ∧
      serverPort cfg port envPort = specPrecedence port envPort cfg.port ∧
      clientHost cfg host = specPrecedence host none cfg.host ∧
      clientPort cfg port = specPrecedence port none cfg.port := by
  refine ⟨?_, ?_, ?_, ?_⟩
  · cases host <;> cases envHost <;> rfl
  · cases port <;> cases envPort <;> rfl
  · cases host <;> rfl
  · cases port <;> rfl

/-- C4: the code violates the claim for `redirected_stderr`. With
pre-entry endpoints stdout = 0 and stderr = 1 and redirect target 2, a
bare `redirected_stderr` scope (body a no-op, completing or raising)
restores stderr to 1 but leaves sys.stdout equal to the target 2 instead
of its pre-entry value 0: the unconditional `sys.stdout = out` inside
`_redirect_stream` is never undone by the `finally`, which restores only
the redirected attribute. The sibling scopes `redirected_stdout` and
`redirected_stdstreams` do restore every endpoint, even when the body
raises. -/
theorem io_redirected_stderr_leaks_stdout :
    (redirected_stderr 2 (fun s => (s, false)) ⟨0, 1⟩).1 = ⟨2, 1⟩ ∧
      (redirected_stderr 2 (fun s => (s, true)) ⟨0, 1⟩).1 = ⟨2, 1⟩ ∧
      (redirected_stderr 2 (fun s => (s, false)) ⟨0, 1⟩).1.stdout ≠ 0 ∧
      (redirected_stdout 2 (fun s => (s, true)) ⟨0, 1⟩).1 = ⟨0, 1⟩ ∧
      (redirected_stdstreams 2 (fun s => (s, true)) ⟨0, 1⟩).1 = ⟨0, 1⟩ :=
  ⟨rfl, rfl, by decide, rfl, rfl⟩
